import Mathlib

/-!
# Verification of the continuous-message debounce plugin (`src/main.py`)

Shallow embedding of the single-file plugin
`astrbot_plugin_continuous_message/main.py` and proofs about it.

The plugin intercepts private chat messages, buffers the ones that arrive
within a rolling debounce window, and submits the merged text to an LLM
provider.  The embedding below translates, function by function:

* `is_command`                (main.py lines 52-69)
* `_extract_response_text`    (main.py lines 71-86)
* text / image extraction from message components (lines 105-138, 167-205,
  245-265), collapsed into `extract_text` / `extract_images` / `msgText`
* `process_message`           (lines 163-230)
* the `collect_messages` session-waiter callback (lines 238-283), one
  invocation per inbound message, plus `run_session` iterating it
* `send_to_llm`               (lines 286-363)
* the terminal branches of `handle_private_msg` (lines 99-160 entry,
  365-382 command-interrupt finish, 384-402 timeout finish).

Python strings are modelled by Lean `String`; the Python string methods
used by the source (`strip`, `startswith`, `join`, `in`) are re-implemented
below over `String.data` so that every definition evaluates inside the
kernel.  Python floats (`debounce_time`) are modelled by `Rat`: the source
only compares the value with `0`, never does float arithmetic.
-/

/-- ASCII whitespace as stripped by Python's `str.strip()`
(space, tab, newline, carriage return, vertical tab, form feed). -/
def pyIsWS (c : Char) : Bool :=
  c = ' ' || c = '\t' || c = '\n' || c = '\r' || c = '\x0b' || c = '\x0c'

/-- `str.strip()` on a character list: drop whitespace from both ends. -/
def stripList (l : List Char) : List Char :=
  ((l.dropWhile pyIsWS).reverse.dropWhile pyIsWS).reverse

/-- Python `s.strip()`. -/
def pyStrip (s : String) : String := ⟨stripList s.data⟩

/-- Python `s.startswith(p)`. -/
def pyStartsWith (s p : String) : Bool := p.data.isPrefixOf s.data

/-- Python `sep.join(parts)`. -/
def pyJoin (sep : String) : List String → String
  | [] => ""
  | [s] => s
  | s :: rest => s ++ sep ++ pyJoin sep rest

/-- Substring containment on character lists (Python `sub in s`). -/
def listContainsSub (s sub : List Char) : Bool :=
  match s with
  | [] => sub.isEmpty
  | _ :: rest => sub.isPrefixOf s || listContainsSub rest sub

/-- Python `sub in s`. -/
def strContainsSub (s sub : String) : Bool := listContainsSub s.data sub.data

/-- Plugin configuration (`__init__`, main.py lines 39-47).  `debounce_time`
is a Python float compared only against `0`; modelled by `Rat`. -/
structure Config where
  enable_plugin : Bool
  debounce_time : Rat
  command_prefixes : List String
  merge_separator : String
deriving Repr, DecidableEq

/-- The default configuration values of `__init__`. -/
def defaultConfig : Config :=
  { enable_plugin := true
    debounce_time := 2
    command_prefixes := ["/"]
    merge_separator := "\n" }

/-- One component of an inbound message chain.  `plain` carries the text
contributed by a `Plain`/`Text` component (whichever of the `text` /
`content` / `data` attributes the source reads); `image` carries the value
of the component's `url` or `file` attribute, or `none` when the image
component has neither. -/
inductive Component
  | plain (text : String)
  | image (ref : Option String)
  | other
deriving Repr, DecidableEq

/-- An inbound message event: the structured component chain
(`event.message_obj.message`) and the flattened `event.message_str`
fallback (already holding `""` for Python `None`). -/
structure Msg where
  components : List Component
  message_str : String
deriving Repr, DecidableEq

/-- A pure-text message with a single `Plain` component. -/
def textMsg (t : String) : Msg := ⟨[Component.plain t], ""⟩

/-- The mutable session buffers: the text-fragment list `buffer` and the
accumulated `image_urls` list (main.py lines 157-160). -/
structure BufState where
  buffer : List String
  image_urls : List String
deriving Repr, DecidableEq

/-- `is_command` (main.py lines 52-69): strip the message; an empty result
is never a command; otherwise scan the configured prefixes with
`startswith`. -/
def is_command (command_prefixes : List String) (message : String) : Bool :=
  let m := pyStrip message
  if m = "" then false
  else command_prefixes.any fun p => pyStartsWith m p

/-- Concatenation of the text of all `Plain`/`Text` components, in order
(the component loops at main.py lines 108-119, 171-182, 248-257). -/
def extract_text (comps : List Component) : String :=
  comps.foldl (fun acc c => match c with
    | Component.plain t => acc ++ t
    | _ => acc) ""

/-- Whether any component of the message is an image component
(`has_image` in the source). -/
def has_image (comps : List Component) : Bool :=
  comps.any fun c => match c with
    | Component.image _ => true
    | _ => false

/-- The image references collected from the components, in order: each
image component contributes its `url` (or, failing that, `file`) attribute;
an image with neither contributes nothing (main.py lines 192-197). -/
def extract_images (comps : List Component) : List String :=
  comps.filterMap fun c => match c with
    | Component.image r => r
    | _ => none

/-- The normalized text of a message: the concatenated component text,
stripped; if the components yield no text, the stripped `message_str`
fallback (main.py lines 134-138, 201-205, 261-265 — all three extraction
sites compute exactly this value). -/
def msgText (m : Msg) : String :=
  let t := extract_text m.components
  if t = "" then pyStrip m.message_str else pyStrip t

/-- The image-only placeholder fragment (main.py line 228). -/
def imagePlaceholder : String := "[图片]"

/-- `process_message` (main.py lines 163-230), as a pure function from the
buffer state and the message to `(accepted, new state)`.

Faithful to the source's statement order: the component loop appends the
message's image references to `image_urls` *before* the empty / command
rejection checks, so a rejected message still leaves its image references
behind.  `ev.stop_event()` (line 220) is called exactly when the result is
`true`. -/
def process_message (cfg : Config) (st : BufState) (m : Msg) :
    Bool × BufState :=
  let text := msgText m
  let hasImg := has_image m.components
  let st1 : BufState :=
    { st with image_urls := st.image_urls ++ extract_images m.components }
  if text = "" ∧ hasImg = false then (false, st1)
  else if text ≠ "" ∧ is_command cfg.command_prefixes text = true then
    (false, st1)
  else if text ≠ "" then
    (true, { st1 with buffer := st1.buffer ++ [text] })
  else
    (true, { st1 with buffer := st1.buffer ++ [imagePlaceholder] })

/-- Result of running the entry phase of `handle_private_msg`
(main.py lines 99-160 and the first-message processing at lines 232-235):
`intercepted` records whether the event was taken over
(`event.stop_event()` called, a debounce session started), and
`sessionState` is the seeded buffer state of that session, if any. -/
structure EntryResult where
  intercepted : Bool
  sessionState : Option BufState
deriving Repr, DecidableEq

/-- The entry phase of `handle_private_msg`: disabled plugin, empty
message, command message and non-positive `debounce_time` all release the
event untouched; otherwise the first message is run through
`process_message` on fresh buffers and, on acceptance, a session starts. -/
def handle_entry (cfg : Config) (m : Msg) : EntryResult :=
  if cfg.enable_plugin = false then ⟨false, none⟩
  else
    let raw_text := msgText m
    if raw_text = "" ∧ has_image m.components = false then ⟨false, none⟩
    else if raw_text ≠ "" ∧ is_command cfg.command_prefixes raw_text = true
      then ⟨false, none⟩
    else if cfg.debounce_time ≤ 0 then ⟨false, none⟩
    else
      match process_message cfg ⟨[], []⟩ m with
      | (true, st) => ⟨true, some st⟩
      | (false, _) => ⟨false, none⟩

/-- Effect of one invocation of the `collect_messages` session-waiter
callback (main.py lines 238-283) on one inbound message: the new buffer
state, whether `process_message` accepted the message, whether
`controller.keep(..., reset_timeout=True)` was called, and whether
`controller.stop()` was called. -/
structure StepOut where
  st : BufState
  accepted : Bool
  resetTimeout : Bool
  stopped : Bool
deriving Repr, DecidableEq

/-- The duplicate-first-message test of main.py line 269: the buffer holds
exactly one fragment and the new message's text equals it. -/
def dupOfFirst (buffer : List String) (text : String) : Bool :=
  match buffer with
  | [t0] => text = t0
  | _ => false

/-- One step of `collect_messages` (main.py lines 238-283).  A message that
passes the duplicate-first-message test is skipped with the timeout reset;
otherwise it goes through `process_message`: acceptance resets the timeout,
and a rejected message whose text is a command stops the session. -/
def collect_messages (cfg : Config) (st : BufState) (m : Msg) : StepOut :=
  let text := msgText m
  if dupOfFirst st.buffer text = true then
    ⟨st, false, true, false⟩
  else
    match process_message cfg st m with
    | (true, st') => ⟨st', true, true, false⟩
    | (false, st') =>
      if text ≠ "" ∧ is_command cfg.command_prefixes text = true then
        ⟨st', false, false, true⟩
      else
        ⟨st', false, false, false⟩

/-- How a debounce session ends: the rolling timeout elapsed
(`TimeoutError` at main.py line 384) or `controller.stop()` was called
(normal return, line 368). -/
inductive SessionEnd
  | timeout
  | interrupted
deriving Repr, DecidableEq

/-- The session-waiter loop: feed the inbound messages one by one to
`collect_messages` until one stops the session; if none does, the rolling
timeout eventually fires after the last message. -/
def run_session (cfg : Config) (st : BufState) :
    List Msg → BufState × SessionEnd
  | [] => (st, SessionEnd.timeout)
  | m :: ms =>
    let o := collect_messages cfg st m
    if o.stopped then (o.st, SessionEnd.interrupted)
    else run_session cfg o.st ms

/-- The single fragment an accepted message contributes to the buffer: its
text, or the placeholder when it has no text (main.py lines 223-228). -/
def stepFrag (m : Msg) : String :=
  if msgText m = "" then imagePlaceholder else msgText m

/-- The fragments appended to the buffer by the messages the session-waiter
loop accepts, in arrival order (each accepted message appends exactly one
fragment; skipped, ignored and stopping messages append none). -/
def session_accepted (cfg : Config) (st : BufState) :
    List Msg → List String
  | [] => []
  | m :: ms =>
    let o := collect_messages cfg st m
    let frag := if o.accepted = true then [stepFrag m] else []
    if o.stopped then frag
    else frag ++ session_accepted cfg o.st ms

/-- An LLM response object as probed by `_extract_response_text`
(main.py lines 71-86): each known attribute is `some s` when present with
a string value (`none` models an absent or non-string attribute), and
`str_repr` is the object's `str(...)` form. -/
structure LLMResponse where
  completion_text : Option String
  result : Option String
  content : Option String
  text : Option String
  message : Option String
  str_repr : String
deriving Repr, DecidableEq

/-- The source's usability test `if text and isinstance(text, str)`
(main.py line 84): a present string attribute is usable iff non-empty. -/
def usable : Option String → Option String
  | none => none
  | some t => if t = "" then none else some t

/-- `_extract_response_text` (main.py lines 71-86): probe
`completion_text`, `result`, `content`, `text`, `message` in this order
and return the first usable value; fall back to `str(response)`. -/
def _extract_response_text (r : LLMResponse) : String :=
  match List.findSome? usable
      [r.completion_text, r.result, r.content, r.text, r.message] with
  | some t => t
  | none => r.str_repr

/-- A persona payload (dict or object in the source; both shapes reduce to
two optional string fields, main.py lines 301-305). -/
structure Persona where
  prompt : Option String
  system_prompt : Option String
deriving Repr, DecidableEq

/-- Python's `a or b` on two optional strings (`None` and `""` are falsy),
used for `persona.get('prompt') or persona.get('system_prompt')`. -/
def pyOrOpt : Option String → Option String → Option String
  | none, b => b
  | some s, b => if s = "" then b else some s

/-- One conversation-history entry `{role, content}`. -/
structure HistEntry where
  role : String
  content : String
deriving Repr, DecidableEq

/-- The external collaborators of `send_to_llm` for one conversation:
whether `get_using_provider` returns a provider, the outcome of the
persona fetch (lines 298-311: `.error` models a raised exception, the
payload holds `None` or the persona), the outcome of the history fetch
(lines 314-329: `.error` models a raise anywhere in that `try` block,
`.ok` the parsed history, `[]` for a falsy/absent one), and the outcome of
`provider.text_chat` (lines 332-338). -/
structure Env where
  provider : Bool
  personaResult : Except String (Option Persona)
  historyResult : Except String (List HistEntry)
  providerResult : Except String LLMResponse
deriving Repr

/-- The `system_prompt` value after the persona `try/except`
(main.py lines 298-311): a raise or an absent persona yields `none`. -/
def sysPromptOf (env : Env) : Option String :=
  match env.personaResult with
  | Except.error _ => none
  | Except.ok none => none
  | Except.ok (some p) => pyOrOpt p.prompt p.system_prompt

/-- The `context_history` value after the history `try/except`
(main.py lines 314-329): a raise yields `[]`. -/
def histOf (env : Env) : List HistEntry :=
  match env.historyResult with
  | Except.error _ => []
  | Except.ok h => h

/-- The argument record of a `provider.text_chat` invocation
(main.py lines 333-338). -/
structure LLMCall where
  prompt : String
  context : List HistEntry
  system_prompt : Option String
  image_urls : Option (List String)
deriving Repr, DecidableEq

/-- `img_urls if img_urls else None` (main.py line 337). -/
def imgsOpt (imgs : List String) : Option (List String) :=
  if imgs = [] then none else some imgs

/-- Observable outcome of one `send_to_llm` run: the returned value
(`none` for every Python `return None`), the `provider.text_chat` call
made (if any), and the `update_conversation` payload attempted (if any;
a failing update is swallowed by the source and does not change
`response`). -/
structure SendResult where
  response : Option String
  providerCall : Option LLMCall
  historyUpdate : Option (List HistEntry)
deriving Repr, DecidableEq

/-- `send_to_llm` (main.py lines 286-363) as a pure function of the
environment: empty merged text and absent provider return early; persona
and history failures fall back to `none` / `[]`; a provider raise returns
`None`; an empty extracted response text returns `None` before the
history update; otherwise the new history is the fetched history plus the
user and assistant turns. -/
def send_to_llm (env : Env) (merged_msg : String) (img_urls : List String) :
    SendResult :=
  if merged_msg = "" then ⟨none, none, none⟩
  else if env.provider = false then ⟨none, none, none⟩
  else
    let call : LLMCall :=
      ⟨merged_msg, histOf env, sysPromptOf env, imgsOpt img_urls⟩
    match env.providerResult with
    | Except.error _ => ⟨none, some call, none⟩
    | Except.ok resp =>
      let response_text := _extract_response_text resp
      if response_text = "" then ⟨none, some call, none⟩
      else
        ⟨some response_text, some call,
          some (histOf env ++
            [⟨"user", merged_msg⟩, ⟨"assistant", response_text⟩])⟩

/-- Observable outcome of a terminal branch of `handle_private_msg`: the
`plain_result` reply yielded to the user (if any), whether the branch
called `event.stop_event()` on the triggering event, and the `send_to_llm`
outcome. -/
structure FinishResult where
  reply : Option String
  stoppedEvent : Bool
  llm : SendResult
deriving Repr, DecidableEq

/-- The fixed fallback reply of main.py line 402. -/
def fallbackReply : String := "抱歉，AI 没有返回有效响应。"

/-- The `except TimeoutError` branch (main.py lines 384-402): merge and
strip the buffer; an empty merge releases the event; otherwise stop the
event, run `send_to_llm`, and yield its text or the fixed fallback. -/
def handle_timeout (cfg : Config) (env : Env) (st : BufState) :
    FinishResult :=
  let merged := pyStrip (pyJoin cfg.merge_separator st.buffer)
  if merged = "" then ⟨none, false, ⟨none, none, none⟩⟩
  else
    let r := send_to_llm env merged st.image_urls
    match r.response with
    | some t => ⟨some t, true, r⟩
    | none => ⟨some fallbackReply, true, r⟩

/-- The normal-return (command-interrupt) branch (main.py lines 365-382):
with a non-empty buffer whose merge is non-empty, submit to `send_to_llm`
and yield its text if any; the event is never stopped here, so the
interrupting command propagates to normal command handling. -/
def handle_interrupt (cfg : Config) (env : Env) (st : BufState) :
    FinishResult :=
  if st.buffer = [] then ⟨none, false, ⟨none, none, none⟩⟩
  else
    let merged := pyStrip (pyJoin cfg.merge_separator st.buffer)
    if merged = "" then ⟨none, false, ⟨none, none, none⟩⟩
    else
      let r := send_to_llm env merged st.image_urls
      ⟨r.response, false, r⟩

/-- Spec-side restatement of §4.4's extraction contract for claim C6:
probe `completion_text`, `result`, `content`, `text`, `message` in this
priority order, return the first usable value, else the string form.
Written from the spec's words, to be compared with
`_extract_response_text` (written from the source). -/
def extract_priority_spec (r : LLMResponse) : String :=
  match usable r.completion_text with
  | some t => t
  | none =>
    match usable r.result with
    | some t => t
    | none =>
      match usable r.content with
      | some t => t
      | none =>
        match usable r.text with
        | some t => t
        | none =>
          match usable r.message with
          | some t => t
          | none => r.str_repr

/-- A response whose `completion_text` is usable (witness input). -/
def respOk : LLMResponse := ⟨some "ok!", none, none, none, none, "resp"⟩

/-- A response whose first usable probed attribute is `content`
(witness input for the extraction priority order). -/
def respC6 : LLMResponse := ⟨none, some "", some "res", none, none, "s"⟩

/-- Environment with a provider, no persona, empty history and a
successful provider call (witness input). -/
def envOk : Env := ⟨true, Except.ok none, Except.ok [], Except.ok respOk⟩

/-- Environment for `respC6` (witness input). -/
def envC6 : Env := ⟨true, Except.ok none, Except.ok [], Except.ok respC6⟩

/-- Environment whose provider call raises (input for C8). -/
def envFail : Env :=
  ⟨true, Except.ok none, Except.ok [], Except.error "connection refused"⟩

/-- Environment where only the persona fetch raises while the history
fetch succeeds with a non-empty history (witness input for C7). -/
def envPersonaFail : Env :=
  ⟨true, Except.error "persona db down", Except.ok [⟨"user", "old"⟩],
    Except.ok respOk⟩

/-- Case analysis of `process_message`: a message is either rejected, with
the fragment list untouched, or accepted, appending exactly the fragment
`stepFrag m`; in both cases the message's image references are appended to
`image_urls`.  An accepted message with no image component has non-empty
text. -/
theorem process_message_eq (cfg : Config) (st : BufState) (m : Msg) :
    process_message cfg st m
      = (false, ⟨st.buffer, st.image_urls ++ extract_images m.components⟩)
    ∨ (process_message cfg st m
        = (true, ⟨st.buffer ++ [stepFrag m],
            st.image_urls ++ extract_images m.components⟩)
      ∧ (has_image m.components = false → msgText m ≠ "")) := by
  rcases st with ⟨b, iu⟩
  unfold process_message
  dsimp only
  split
  · exact Or.inl rfl
  · rename_i h1
    split
    · exact Or.inl rfl
    · split
      · rename_i h3
        right
        refine ⟨?_, fun _ => h3⟩
        rw [stepFrag, if_neg h3]
      · rename_i h3
        right
        have htext : msgText m = "" := by simpa using h3
        refine ⟨?_, fun himg => absurd ⟨htext, himg⟩ h1⟩
        rw [stepFrag, if_pos htext]

/-- Case analysis of one `collect_messages` step: the duplicate-skip
branch (state untouched, timeout reset), the acceptance branch (one
fragment appended, timeout reset), or a rejection branch (fragments
untouched, no reset, the session possibly stopped). -/
theorem collect_messages_eq (cfg : Config) (st : BufState) (m : Msg) :
    (dupOfFirst st.buffer (msgText m) = true
      ∧ collect_messages cfg st m = ⟨st, false, true, false⟩)
  ∨ (dupOfFirst st.buffer (msgText m) = false
      ∧ collect_messages cfg st m
        = ⟨⟨st.buffer ++ [stepFrag m],
            st.image_urls ++ extract_images m.components⟩, true, true, false⟩
      ∧ (has_image m.components = false → msgText m ≠ ""))
  ∨ (dupOfFirst st.buffer (msgText m) = false
      ∧ ∃ stp, collect_messages cfg st m
        = ⟨⟨st.buffer, st.image_urls ++ extract_images m.components⟩,
            false, false, stp⟩) := by
  unfold collect_messages
  dsimp only
  split
  · rename_i hdup
    exact Or.inl ⟨hdup, rfl⟩
  · rename_i hdup
    have hdup' : dupOfFirst st.buffer (msgText m) = false := by
      simpa using hdup
    rcases process_message_eq cfg st m with h | ⟨h, himg⟩
    · simp only [h]
      right; right
      refine ⟨hdup', ?_⟩
      split
      · exact ⟨true, rfl⟩
      · exact ⟨false, rfl⟩
    · simp only [h]
      right; left
      exact ⟨hdup', trivial, himg⟩

/-- The buffer after a whole session run is the seeded buffer followed by
the fragments of the accepted messages, in arrival order. -/
theorem run_session_buffer (cfg : Config) (ms : List Msg) (st : BufState) :
    (run_session cfg st ms).1.buffer
      = st.buffer ++ session_accepted cfg st ms := by
  induction ms generalizing st with
  | nil => simp [run_session, session_accepted]
  | cons m ms ih =>
    rw [run_session, session_accepted]
    rcases collect_messages_eq cfg st m with ⟨_, h⟩ | ⟨_, h, _⟩ | ⟨_, stp, h⟩
    · simp [h, ih]
    · simp [h, ih]
    · cases stp <;> simp [h, ih]

/-- For a run over messages without image components, the accepted
fragments are the texts of a subsequence of the arriving messages: arrival
order is preserved and nothing but arriving texts is merged. -/
theorem session_accepted_sublist (cfg : Config) (ms : List Msg)
    (st : BufState) (h : ∀ m ∈ ms, has_image m.components = false) :
    List.Sublist (session_accepted cfg st ms) (ms.map msgText) := by
  induction ms generalizing st with
  | nil => simp [session_accepted]
  | cons m ms ih =>
    rw [session_accepted, List.map_cons]
    have htail : ∀ x ∈ ms, has_image x.components = false :=
      fun x hx => h x (List.mem_cons_of_mem _ hx)
    rcases collect_messages_eq cfg st m with ⟨_, hc⟩ | ⟨_, hc, himg⟩
        | ⟨_, stp, hc⟩
    · simp only [hc]
      exact List.Sublist.cons _ (by simpa using ih _ htail)
    · have hfrag : stepFrag m = msgText m := by
        rw [stepFrag, if_neg (himg (h m (List.mem_cons_self _ _)))]
      simp only [hc, hfrag]
      simpa using List.Sublist.cons₂ (msgText m) (ih _ htail)
    · cases stp
      · simp only [hc]
        exact List.Sublist.cons _ (by simpa using ih _ htail)
      · simp only [hc]
        simp

/-- A character failing the predicate survives `dropWhile`. -/
theorem mem_dropWhile_of_neg {p : Char → Bool} {c : Char} :
    ∀ {l : List Char}, c ∈ l → p c = false → c ∈ l.dropWhile p := by
  intro l hc hp
  induction l with
  | nil => cases hc
  | cons a t ih =>
    rw [List.dropWhile_cons]
    by_cases ha : p a = true
    · rw [if_pos ha]
      rcases List.mem_cons.mp hc with rfl | hmem
      · rw [hp] at ha; cases ha
      · exact ih hmem
    · rw [if_neg ha]
      exact hc

/-- A list holding a non-whitespace character does not strip to nothing. -/
theorem stripList_ne_nil {l : List Char} {c : Char} (hc : c ∈ l)
    (hw : pyIsWS c = false) : stripList l ≠ [] := by
  intro h
  have h1 : c ∈ l.dropWhile pyIsWS := mem_dropWhile_of_neg hc hw
  have h2 : c ∈ (l.dropWhile pyIsWS).reverse := List.mem_reverse.mpr h1
  have h3 : c ∈ (l.dropWhile pyIsWS).reverse.dropWhile pyIsWS :=
    mem_dropWhile_of_neg h2 hw
  rw [stripList, List.reverse_eq_nil_iff] at h
  rw [h] at h3
  cases h3

/-- A non-empty string equal to its own strip holds a non-whitespace
character. -/
theorem exists_nonWS_of_strip_self {t : String} (h0 : pyStrip t = t)
    (hne : t ≠ "") : ∃ c ∈ t.data, pyIsWS c = false := by
  by_contra hall
  push_neg at hall
  have hws : ∀ c ∈ t.data, pyIsWS c = true := by
    intro c hc
    have := hall c hc
    revert this
    cases pyIsWS c <;> simp
  have hdrop : t.data.dropWhile pyIsWS = [] :=
    List.dropWhile_eq_nil_iff.mpr hws
  have hstrip : stripList t.data = [] := by
    rw [stripList, hdrop]
    simp
  apply hne
  apply String.ext
  have hdata : (pyStrip t).data = stripList t.data := rfl
  rw [← h0, hdata, hstrip]

/-- The join of a fragment list starting with `t0` extends `t0`. -/
theorem pyJoin_cons_eq_append (sep t0 : String) (rest : List String) :
    ∃ s, pyJoin sep (t0 :: rest) = t0 ++ s := by
  cases rest with
  | nil =>
    refine ⟨"", ?_⟩
    rw [pyJoin]
    apply String.ext
    rw [String.data_append]
    simp
  | cons r rs =>
    refine ⟨sep ++ pyJoin sep (r :: rs), ?_⟩
    show t0 ++ sep ++ pyJoin sep (r :: rs)
      = t0 ++ (sep ++ pyJoin sep (r :: rs))
    rw [String.append_assoc]

/-- Stripping a join whose first fragment is non-empty and self-stripped
yields a non-empty string. -/
theorem pyStrip_pyJoin_ne_empty {sep t0 : String} (rest : List String)
    (h0 : pyStrip t0 = t0) (hne : t0 ≠ "") :
    pyStrip (pyJoin sep (t0 :: rest)) ≠ "" := by
  obtain ⟨c, hc, hw⟩ := exists_nonWS_of_strip_self h0 hne
  obtain ⟨s, hs⟩ := pyJoin_cons_eq_append sep t0 rest
  have hmem : c ∈ (pyJoin sep (t0 :: rest)).data := by
    rw [hs, String.data_append]
    exact List.mem_append_left _ hc
  intro h
  have : stripList (pyJoin sep (t0 :: rest)).data = [] := by
    have := congrArg String.data h
    simpa [pyStrip] using this
  exact stripList_ne_nil hmem hw this

/-- With a non-empty merged text and a configured provider, `send_to_llm`
always reaches the `provider.text_chat` call, whose arguments are the
merged text, the fetched (or fallen-back) history and system prompt, and
the image list. -/
theorem send_to_llm_providerCall (env : Env) (merged : String)
    (imgs : List String) (hm : merged ≠ "") (hp : env.provider = true) :
    (send_to_llm env merged imgs).providerCall
      = some ⟨merged, histOf env, sysPromptOf env, imgsOpt imgs⟩ := by
  unfold send_to_llm
  rw [if_neg hm, if_neg (by simp [hp])]
  cases h : env.providerResult with
  | error e => simp [h]
  | ok r =>
    simp only [h]
    split <;> rfl

/-- A raising provider call makes `send_to_llm` return `None` with no
history update, whatever the rest of the environment. -/
theorem send_to_llm_error (env : Env) (merged : String) (imgs : List String)
    (e : String) (hfail : env.providerResult = Except.error e) :
    (send_to_llm env merged imgs).response = none
    ∧ (send_to_llm env merged imgs).historyUpdate = none := by
  unfold send_to_llm
  split
  · exact ⟨rfl, rfl⟩
  · split
    · exact ⟨rfl, rfl⟩
    · simp [hfail]

/-- With a non-empty merge, the timeout branch stops the event, runs
`send_to_llm` on the merged buffer, and yields its text or the fixed
fallback. -/
theorem handle_timeout_eq (cfg : Config) (env : Env) (st : BufState)
    (hm : pyStrip (pyJoin cfg.merge_separator st.buffer) ≠ "") :
    (handle_timeout cfg env st).llm
      = send_to_llm env (pyStrip (pyJoin cfg.merge_separator st.buffer))
          st.image_urls
    ∧ (handle_timeout cfg env st).stoppedEvent = true
    ∧ (handle_timeout cfg env st).reply
      = some ((send_to_llm env
          (pyStrip (pyJoin cfg.merge_separator st.buffer))
          st.image_urls).response.getD fallbackReply) := by
  unfold handle_timeout
  rw [if_neg hm]
  cases h : (send_to_llm env (pyStrip (pyJoin cfg.merge_separator st.buffer))
      st.image_urls).response <;> simp [h]

/-- With a non-empty merge, the interrupt branch runs `send_to_llm` on the
merged buffer, yields exactly its response, and never stops the event. -/
theorem handle_interrupt_eq (cfg : Config) (env : Env) (st : BufState)
    (hm : pyStrip (pyJoin cfg.merge_separator st.buffer) ≠ "") :
    (handle_interrupt cfg env st).llm
      = send_to_llm env (pyStrip (pyJoin cfg.merge_separator st.buffer))
          st.image_urls
    ∧ (handle_interrupt cfg env st).reply
      = (send_to_llm env (pyStrip (pyJoin cfg.merge_separator st.buffer))
          st.image_urls).response
    ∧ (handle_interrupt cfg env st).stoppedEvent = false := by
  have hb : st.buffer ≠ [] := by
    intro h
    apply hm
    rw [h]
    rfl
  unfold handle_interrupt
  rw [if_neg hb, if_neg hm]
  exact ⟨rfl, rfl, rfl⟩

/-- C1: for every debounce session seeded with a first fragment and fed
any stream of image-free messages within the rolling window (the run ends
by timeout), the merged prompt submitted to the provider equals the texts
of the accepted messages — the seed followed by the fragments the loop
accepted — joined by the configured separator in arrival order, with the
surrounding whitespace of the result trimmed; and those accepted texts
form a subsequence of the arriving messages' texts. -/
theorem c1_merged_prompt (cfg : Config) (env : Env) (t0 : String)
    (ms : List Msg)
    (h0 : pyStrip t0 = t0) (h0ne : t0 ≠ "")
    (htext : ∀ m ∈ ms, has_image m.components = false)
    (hp : env.provider = true)
    (_hrun : (run_session cfg ⟨[t0], []⟩ ms).2 = SessionEnd.timeout) :
    ((handle_timeout cfg env
          (run_session cfg ⟨[t0], []⟩ ms).1).llm.providerCall).map
        LLMCall.prompt
      = some (pyStrip (pyJoin cfg.merge_separator
          (t0 :: session_accepted cfg ⟨[t0], []⟩ ms)))
    ∧ List.Sublist (session_accepted cfg ⟨[t0], []⟩ ms)
        (ms.map msgText) := by
  have hbuf : (run_session cfg ⟨[t0], []⟩ ms).1.buffer
      = t0 :: session_accepted cfg ⟨[t0], []⟩ ms := by
    simpa using run_session_buffer cfg ms ⟨[t0], []⟩
  have hm : pyStrip (pyJoin cfg.merge_separator
      (t0 :: session_accepted cfg ⟨[t0], []⟩ ms)) ≠ "" :=
    pyStrip_pyJoin_ne_empty _ h0 h0ne
  have hm' : pyStrip (pyJoin cfg.merge_separator
      (run_session cfg ⟨[t0], []⟩ ms).1.buffer) ≠ "" := by
    rw [hbuf]
    exact hm
  obtain ⟨hllm, -, -⟩ :=
    handle_timeout_eq cfg env (run_session cfg ⟨[t0], []⟩ ms).1 hm'
  constructor
  · rw [hllm, hbuf, send_to_llm_providerCall env _ _ hm hp]
    rfl
  · exact session_accepted_sublist cfg ms _ htext

/-- Witness for C1 at a concrete session: seed `"hello"`, one further
message `"world"`, a run ending in timeout, and the provider receiving
exactly `"hello\nworld"`. -/
theorem c1_merged_prompt_witness :
    pyStrip "hello" = "hello"
    ∧ (run_session defaultConfig ⟨["hello"], []⟩ [textMsg "world"]).2
        = SessionEnd.timeout
    ∧ ((handle_timeout defaultConfig envOk
          (run_session defaultConfig
            ⟨["hello"], []⟩ [textMsg "world"]).1).llm.providerCall).map
        LLMCall.prompt = some "hello\nworld"
    ∧ List.Sublist
        (session_accepted defaultConfig ⟨["hello"], []⟩ [textMsg "world"])
        ([textMsg "world"].map msgText) := by
  have h := c1_merged_prompt defaultConfig envOk "hello" [textMsg "world"]
    (by decide) (by decide) (by decide) rfl (by decide)
  refine ⟨by decide, by decide, ?_, h.2⟩
  rw [h.1]
  decide

/-- C2 counterexample: a message whose text is a command but which also
carries an image segment is rejected by `process_message`, yet the buffer
state is mutated — the image reference has been appended. -/
theorem c2_append_rejection_counterexample :
    (process_message defaultConfig ⟨[], []⟩
        ⟨[Component.plain "/cmd",
          Component.image (some "http://img/1.png")], ""⟩).1 = false
    ∧ (process_message defaultConfig ⟨[], []⟩
        ⟨[Component.plain "/cmd",
          Component.image (some "http://img/1.png")], ""⟩).2
      ≠ ⟨[], []⟩ := by
  decide

/-- C2 amended: a rejected message (empty, or a command) never mutates the
fragment list, but its image references are still appended to the
accumulated image list; so the whole state is unchanged exactly when the
rejected message contributes no image reference — in particular for every
empty-rejected message. -/
theorem c2_append_rejection (cfg : Config) (st : BufState) (m : Msg)
    (h : (process_message cfg st m).1 = false) :
    (process_message cfg st m).2.buffer = st.buffer
    ∧ (process_message cfg st m).2.image_urls
        = st.image_urls ++ extract_images m.components := by
  rcases process_message_eq cfg st m with he | ⟨he, -⟩
  · rw [he]
    exact ⟨rfl, rfl⟩
  · rw [he] at h
    cases h

/-- Witness for the amended C2 at a concrete rejected command message. -/
theorem c2_append_rejection_witness :
    (process_message defaultConfig ⟨["a"], ["u0"]⟩ (textMsg "/help")).1
      = false
    ∧ (process_message defaultConfig ⟨["a"], ["u0"]⟩ (textMsg "/help")).2.buffer
      = ["a"]
    ∧ (process_message defaultConfig
        ⟨["a"], ["u0"]⟩ (textMsg "/help")).2.image_urls
      = ["u0"] ++ extract_images (textMsg "/help").components := by
  have h := c2_append_rejection defaultConfig ⟨["a"], ["u0"]⟩
    (textMsg "/help") (by decide)
  exact ⟨by decide, h.1, h.2⟩

/-- C3: `is_command` returns `true` exactly when the stripped text is
non-empty and starts with at least one configured command prefix; an empty
or whitespace-only string is never classified as a command. -/
theorem c3_is_command_iff (command_prefixes : List String) (t : String) :
    is_command command_prefixes t = true
      ↔ (pyStrip t ≠ ""
        ∧ ∃ p ∈ command_prefixes, pyStartsWith (pyStrip t) p = true) := by
  unfold is_command
  by_cases h : pyStrip t = "" <;> simp [h, List.any_eq_true]

/-- C4: with a non-positive `debounce_time`, no interception occurs for
any inbound message: the handler neither stops the event nor starts a
session (so nothing is buffered and no provider call can follow), and the
event is released unchanged. -/
theorem c4_zero_debounce (cfg : Config) (m : Msg)
    (hd : cfg.debounce_time ≤ 0) :
    handle_entry cfg m = ⟨false, none⟩ := by
  unfold handle_entry
  rw [if_pos hd]
  simp

/-- Witness for C4 at `debounce_time = 0` and a qualifying message. -/
theorem c4_zero_debounce_witness :
    ({ defaultConfig with debounce_time := 0 } : Config).debounce_time ≤ 0
    ∧ handle_entry { defaultConfig with debounce_time := 0 } (textMsg "hi")
        = ⟨false, none⟩ :=
  ⟨by decide, c4_zero_debounce _ _ (by decide)⟩

/-- C5: evaluation at the failing input.  With configured command
prefixes `["["]`, an image-only first message reachably seeds the buffer
with the placeholder `"[图片]"`; a subsequent message `"[图片]"` is
classified as a command, yet the duplicate-first-message branch of
`collect_messages` skips it (no `controller.stop()`, timeout reset), so
the session stays COLLECTING and ends by timeout instead of being
interrupted — and the merged prompt equals the command's own text.  This
contradicts the claim that a command always ends the COLLECTING state and
never appears in the merged prompt. -/
theorem c5_command_dupskip_eval :
    is_command ["["] (msgText (textMsg "[图片]")) = true
    ∧ process_message ⟨true, 2, ["["], "\n"⟩ ⟨[], []⟩
        ⟨[Component.image (some "http://img/1.png")], ""⟩
      = (true, ⟨["[图片]"], ["http://img/1.png"]⟩)
    ∧ collect_messages ⟨true, 2, ["["], "\n"⟩ ⟨["[图片]"], []⟩
        (textMsg "[图片]")
      = ⟨⟨["[图片]"], []⟩, false, true, false⟩
    ∧ run_session ⟨true, 2, ["["], "\n"⟩ ⟨["[图片]"], []⟩
        [textMsg "[图片]"]
      = (⟨["[图片]"], []⟩, SessionEnd.timeout)
    ∧ pyStrip (pyJoin "\n" ["[图片]"]) = msgText (textMsg "[图片]") := by
  decide

/-- C6: the reply-text extraction probes the known response-text fields in
the fixed priority order `completion_text`, `result`, `content`, `text`,
`message` and returns the first usable one, falling back to the response's
string form (`_extract_response_text` equals the spec-side
`extract_priority_spec`); and an empty extracted text makes `send_to_llm`
take the empty-response error branch: no reply text is returned and no
history update is attempted. -/
theorem c6_response_extraction (r : LLMResponse) (env : Env)
    (merged : String) (imgs : List String)
    (hm : merged ≠ "") (hp : env.provider = true)
    (hr : env.providerResult = Except.ok r) :
    _extract_response_text r = extract_priority_spec r
    ∧ (send_to_llm env merged imgs).response
        = (if _extract_response_text r = "" then none
          else some (_extract_response_text r))
    ∧ (send_to_llm env merged imgs).historyUpdate
        = (if _extract_response_text r = "" then none
          else some (histOf env
            ++ [⟨"user", merged⟩,
                ⟨"assistant", _extract_response_text r⟩])) := by
  refine ⟨?_, ?_, ?_⟩
  · unfold _extract_response_text extract_priority_spec
    cases h1 : usable r.completion_text <;> cases h2 : usable r.result <;>
      cases h3 : usable r.content <;> cases h4 : usable r.text <;>
      cases h5 : usable r.message <;>
      simp [List.findSome?, h1, h2, h3, h4, h5]
  · unfold send_to_llm
    rw [if_neg hm, if_neg (by simp [hp])]
    simp only [hr]
    by_cases he : _extract_response_text r = "" <;> simp [he]
  · unfold send_to_llm
    rw [if_neg hm, if_neg (by simp [hp])]
    simp only [hr]
    by_cases he : _extract_response_text r = "" <;> simp [he]

/-- Witness for C6 at a response whose first usable field is `content`
(an absent `completion_text` and an empty `result` are both skipped). -/
theorem c6_response_extraction_witness :
    ("hi" : String) ≠ ""
    ∧ _extract_response_text respC6 = extract_priority_spec respC6
    ∧ (send_to_llm envC6 "hi" []).response
        = (if _extract_response_text respC6 = "" then none
          else some (_extract_response_text respC6))
    ∧ _extract_response_text respC6 = "res" := by
  have h := c6_response_extraction respC6 envC6 "hi" [] (by decide) rfl rfl
  exact ⟨by decide, h.1, h.2.1, by decide⟩

/-- C7: no fetch failure ever aborts the run.  For every environment —
whether the persona fetch, the history fetch, both or neither raise —
`send_to_llm` still invokes the provider with the merged prompt, the
assembled system prompt and the assembled history; and respectively, a
raising persona fetch assembles an absent system prompt, and a raising
history fetch assembles an empty history. -/
theorem c7_fetch_failures (env : Env) (merged : String)
    (imgs : List String)
    (hm : merged ≠ "") (hp : env.provider = true) :
    (send_to_llm env merged imgs).providerCall
      = some ⟨merged, histOf env, sysPromptOf env, imgsOpt imgs⟩
    ∧ (∀ e, env.personaResult = Except.error e → sysPromptOf env = none)
    ∧ (∀ e, env.historyResult = Except.error e → histOf env = []) := by
  refine ⟨send_to_llm_providerCall env merged imgs hm hp, ?_, ?_⟩
  · intro e he
    simp [sysPromptOf, he]
  · intro e he
    simp [histOf, he]

/-- Witness for C7 at an environment where only the persona fetch raises:
the provider is still invoked with the merged prompt, an absent system
prompt, and the successfully fetched non-empty history. -/
theorem c7_fetch_failures_witness :
    envPersonaFail.personaResult = Except.error "persona db down"
    ∧ (send_to_llm envPersonaFail "hi" []).providerCall
        = some ⟨"hi", [⟨"user", "old"⟩], none, imgsOpt []⟩
    ∧ sysPromptOf envPersonaFail = none
    ∧ histOf envPersonaFail = [⟨"user", "old"⟩] := by
  have h := c7_fetch_failures envPersonaFail "hi" [] (by decide) rfl
  refine ⟨rfl, ?_, h.2.1 "persona db down" rfl, rfl⟩
  rw [h.1]
  rfl

/-- C8 counterexample: when the provider call raises (cause
`"connection refused"`), the user-visible reply of the timeout path is the
fixed generic fallback, which does not contain the underlying cause — the
cause is only logged — refuting the claim that the failure is surfaced to
the user with the underlying cause in the reply. -/
theorem c8_provider_failure_counterexample :
    (handle_timeout defaultConfig envFail ⟨["hi"], []⟩).reply
      = some fallbackReply
    ∧ strContainsSub fallbackReply "connection refused" = false
    ∧ (handle_timeout defaultConfig envFail ⟨["hi"], []⟩).llm.historyUpdate
      = none := by
  decide

/-- C8 amended: whenever the provider invocation raises, no history
mutation occurs and no reply text is produced; the timeout path surfaces
only the fixed generic fallback reply (the cause is logged, not shown),
and the command-interrupt path yields no reply at all. -/
theorem c8_provider_failure (cfg : Config) (env : Env) (st : BufState)
    (e : String)
    (hfail : env.providerResult = Except.error e)
    (hm : pyStrip (pyJoin cfg.merge_separator st.buffer) ≠ "") :
    (send_to_llm env (pyStrip (pyJoin cfg.merge_separator st.buffer))
        st.image_urls).response = none
    ∧ (send_to_llm env (pyStrip (pyJoin cfg.merge_separator st.buffer))
        st.image_urls).historyUpdate = none
    ∧ (handle_timeout cfg env st).reply = some fallbackReply
    ∧ (handle_interrupt cfg env st).reply = none := by
  obtain ⟨hres, hhist⟩ := send_to_llm_error env
    (pyStrip (pyJoin cfg.merge_separator st.buffer)) st.image_urls e hfail
  obtain ⟨-, -, hrep⟩ := handle_timeout_eq cfg env st hm
  obtain ⟨-, hirep, -⟩ := handle_interrupt_eq cfg env st hm
  refine ⟨hres, hhist, ?_, ?_⟩
  · rw [hrep, hres]
    rfl
  · rw [hirep, hres]

/-- Witness for the amended C8 at a concrete raising provider. -/
theorem c8_provider_failure_witness :
    envFail.providerResult = Except.error "connection refused"
    ∧ (send_to_llm envFail
        (pyStrip (pyJoin defaultConfig.merge_separator ["hi"])) []).response
      = none
    ∧ (handle_timeout defaultConfig envFail ⟨["hi"], []⟩).reply
        = some fallbackReply
    ∧ (handle_interrupt defaultConfig envFail ⟨["hi"], []⟩).reply
        = none := by
  have h := c8_provider_failure defaultConfig envFail ⟨["hi"], []⟩
    "connection refused" rfl (by decide)
  exact ⟨rfl, h.1, h.2.2.1, h.2.2.2⟩

/-- C9 counterexample: with the buffer holding the single fragment
`"hi"`, a genuinely new message `"hi"` is NOT accepted (the buffer is
unchanged) yet the duplicate-skip branch resets the rolling timeout,
refuting the claim that the timeout is reset exactly on acceptance and
never by a non-accepted message. -/
theorem c9_reset_counterexample :
    (collect_messages defaultConfig ⟨["hi"], []⟩ (textMsg "hi")).accepted
      = false
    ∧ (collect_messages defaultConfig ⟨["hi"], []⟩ (textMsg "hi")).st
      = ⟨["hi"], []⟩
    ∧ (collect_messages defaultConfig ⟨["hi"], []⟩ (textMsg "hi")).resetTimeout
      = true := by
  decide

/-- C9 amended: within one session, the rolling timeout is reset exactly
when the message is accepted into the buffer or when it is skipped by the
duplicate-first-message test (its text equals the buffer's sole fragment);
any other non-accepted message — empty, ignored, or a stopping command —
never resets it.  Acceptance is equivalent to the buffer growing by
exactly one fragment. -/
theorem c9_reset_amended (cfg : Config) (st : BufState) (m : Msg) :
    (collect_messages cfg st m).resetTimeout
      = ((collect_messages cfg st m).accepted
        || dupOfFirst st.buffer (msgText m))
    ∧ (collect_messages cfg st m).st.buffer.length
      = st.buffer.length
        + (if (collect_messages cfg st m).accepted = true then 1 else 0) := by
  rcases collect_messages_eq cfg st m with ⟨hd, h⟩ | ⟨hd, h, -⟩
      | ⟨hd, stp, h⟩ <;>
    simp [h, hd]

/-- C10: when a session is interrupted by a command and the buffer's merge
is non-empty, the interrupt branch (given a configured provider) submits
the merged collected messages to the provider, delivers exactly the
provider outcome as the user reply, and does not stop the event, so the
interrupting command is released for normal execution; the buffer is not
discarded silently. -/
theorem c10_interrupt_flush (cfg : Config) (env : Env) (st : BufState)
    (hp : env.provider = true)
    (hm : pyStrip (pyJoin cfg.merge_separator st.buffer) ≠ "") :
    (handle_interrupt cfg env st).llm.providerCall
      = some ⟨pyStrip (pyJoin cfg.merge_separator st.buffer), histOf env,
          sysPromptOf env, imgsOpt st.image_urls⟩
    ∧ (handle_interrupt cfg env st).reply
        = (handle_interrupt cfg env st).llm.response
    ∧ (handle_interrupt cfg env st).stoppedEvent = false := by
  obtain ⟨hllm, hrep, hstop⟩ := handle_interrupt_eq cfg env st hm
  refine ⟨?_, ?_, hstop⟩
  · rw [hllm, send_to_llm_providerCall env _ _ hm hp]
  · rw [hrep, hllm]

/-- Witness for C10 at a concrete interrupted buffer `["hi"]`. -/
theorem c10_interrupt_flush_witness :
    envOk.provider = true
    ∧ (handle_interrupt defaultConfig envOk ⟨["hi"], []⟩).llm.providerCall
      = some ⟨pyStrip (pyJoin defaultConfig.merge_separator ["hi"]),
          histOf envOk, sysPromptOf envOk, imgsOpt []⟩
    ∧ (handle_interrupt defaultConfig envOk ⟨["hi"], []⟩).reply
        = (handle_interrupt defaultConfig envOk ⟨["hi"], []⟩).llm.response
    ∧ (handle_interrupt defaultConfig envOk ⟨["hi"], []⟩).stoppedEvent
      = false := by
  have h := c10_interrupt_flush defaultConfig envOk ⟨["hi"], []⟩ rfl
    (by decide)
  exact ⟨rfl, h.1, h.2.1, h.2.2⟩
